import Mathlib

/-!
Shallow embedding of the social-graph event propagation core of the
`datingsite` repository: the fame-rating recomputation
(`backend/utils/fameRating.js`), the like / unlike / block / visit HTTP
handlers (`routes/users.js`), and the socket connection handler
(`socket/socketHandler.js`) with its presence map, message sending and
disconnect cleanup.  Relational tables are modelled as lists of rows;
SQL `EXISTS` / `SELECT 1 ... WHERE` checks become `List.any` over the
row lists, translated clause by clause from the queries.
-/

namespace DatingSite

/-- Notification `type` column values used by the handlers. -/
inductive NType
  | tlike
  | tunlike
  | tmatch
  | tvisit
  | tmessage
deriving DecidableEq

/-- A row of the `notifications` table: `(user_id, type, from_user_id)`.
The `id`, `is_read` and `created_at` columns play no role in the claims. -/
structure Notif where
  user : Nat
  ntype : NType
  fromUser : Nat
deriving DecidableEq

/-- A row of the `messages` table: `(sender_id, receiver_id, content, is_read)`. -/
structure Msg where
  sender : Nat
  receiver : Nat
  content : String
  isRead : Bool
deriving DecidableEq

/-- The relational-store state visible to the handlers.
`profiles` keeps `(user_id, fame_rating)`; `pics` is the set of users
holding an image with `is_profile_picture = true`; `likes` rows are
`(liker_id, liked_id)`; `visits` rows are `(visitor_id, visited_id)`
(append-only, duplicates allowed — no uniqueness constraint in the
schema); `blocks` rows are `(blocker_id, blocked_id)`. -/
structure DB where
  profiles : List (Nat × Int)
  pics : List Nat
  likes : List (Nat × Nat)
  visits : List (Nat × Nat)
  blocks : List (Nat × Nat)
  messages : List Msg
  notifications : List Notif
deriving DecidableEq

/-- `SELECT 1 FROM t WHERE fst = u AND snd = v` over a two-column table. -/
def hasPair (l : List (Nat × Nat)) (u v : Nat) : Bool :=
  l.any fun p => p.1 == u && p.2 == v

/-- Membership bridge for the `hasPair` existence check. -/
theorem hasPair_iff (l : List (Nat × Nat)) (u v : Nat) :
    hasPair l u v = true ↔ (u, v) ∈ l := by
  simp only [hasPair, List.any_eq_true, Bool.and_eq_true, beq_iff_eq]
  constructor
  · rintro ⟨p, hp, h1, h2⟩
    cases p
    simp_all
  · intro h
    exact ⟨(u, v), h, rfl, rfl⟩

/-- Negative membership bridge for `hasPair`. -/
theorem hasPair_eq_false (l : List (Nat × Nat)) (u v : Nat) :
    hasPair l u v = false ↔ (u, v) ∉ l := by
  rw [← Bool.not_eq_true, not_iff_not]
  exact hasPair_iff l u v

/-- `COALESCE(COUNT(DISTINCT l.liker_id), 0)` over
`likes l ON l.liked_id = $1`: the number of distinct current likers of `b`. -/
def totalLikes (db : DB) (b : Nat) : Nat :=
  (((db.likes.filter fun l => l.2 == b).map fun l => l.1).dedup).length

/-- `COALESCE(COUNT(DISTINCT v.visitor_id), 0)` over
`visits v ON v.visited_id = $1`: the number of distinct visitors of `b`
(note: distinct visitors, not visit events). -/
def totalVisits (db : DB) (b : Nat) : Nat :=
  (((db.visits.filter fun v => v.2 == b).map fun v => v.1).dedup).length

/-- The `total_dislikes` subquery of `updateFameRating`:
`SELECT COUNT(*) FROM likes l2 WHERE l2.liked_id = $1 AND NOT EXISTS
(SELECT 1 FROM likes l3 WHERE l3.liker_id = l2.liker_id AND l3.liked_id = $1)`. -/
def totalDislikes (db : DB) (b : Nat) : Nat :=
  (db.likes.filter fun l2 =>
    l2.2 == b && !(db.likes.any fun l3 => l3.1 == l2.1 && l3.2 == b)).length

/-- The score expression
`(total_likes * 3) + (total_visits * 1) - (total_dislikes * 2)`. -/
def fameScore (db : DB) (b : Nat) : Int :=
  3 * (totalLikes db b : Int) + (totalVisits db b : Int)
    - 2 * (totalDislikes db b : Int)

/-- `SELECT 1 FROM profiles WHERE user_id = b` — the `UPDATE ... WHERE
user_id = $1` affects a row iff this holds. -/
def hasProfile (db : DB) (b : Nat) : Bool :=
  db.profiles.any fun p => p.1 == b

/-- `updateFameRating(userId)` from `backend/utils/fameRating.js`:
recompute the three aggregates and overwrite `profiles.fame_rating`
for `userId`; returns the new rating, or `0` when no profile row was
updated (empty `RETURNING`). -/
def updateFameRating (db : DB) (b : Nat) : DB × Int :=
  let score := fameScore db b
  if hasProfile db b then
    ({ db with profiles :=
        db.profiles.map fun p => if p.1 == b then (p.1, score) else p },
     score)
  else (db, 0)

/-- `getFameRating`-style lookup of the stored `fame_rating` of `u`
(`0` when the profile row is absent). -/
def lookupFame (ps : List (Nat × Int)) (u : Nat) : Int :=
  match ps.find? (fun p => p.1 == u) with
  | some p => p.2
  | none => 0

/-- Stored fame rating of `u` in state `db`. -/
def getFame (db : DB) (u : Nat) : Int :=
  lookupFame db.profiles u

/-- The `total_dislikes` subquery always evaluates to `0`: each candidate
row `l2` with `l2.liked_id = b` is itself a witness of the inner
`EXISTS`, so the `NOT EXISTS` filter rejects every row. -/
theorem totalDislikes_eq_zero (db : DB) (b : Nat) :
    totalDislikes db b = 0 := by
  unfold totalDislikes
  rw [List.length_eq_zero, List.filter_eq_nil_iff]
  intro l2 hl2
  simp only [Bool.and_eq_true, Bool.not_eq_true', List.any_eq_false,
    Bool.and_eq_true, beq_iff_eq, not_and]
  intro h2
  push_neg
  exact ⟨l2, hl2, rfl, by simpa using h2⟩

/-- `SELECT 1 FROM blocks WHERE (blocker_id = a AND blocked_id = b) OR
(blocker_id = b AND blocked_id = a)` — the symmetric block check used
by every handler. -/
def isBlockedPair (db : DB) (a b : Nat) : Bool :=
  hasPair db.blocks a b || hasPair db.blocks b a

/-- Outcome of `POST /api/users/:id/like`, mirroring its HTTP responses. -/
inductive LikeRes
  | selfLike
  | noProfilePic
  | blockedLike
  | ok (isMatch : Bool)
deriving DecidableEq

/-- The `POST /api/users/:id/like` handler of `routes/users.js`:
reject self-likes, likers without a profile picture, and blocked pairs;
then insert the like with `ON CONFLICT DO NOTHING`, check the reverse
edge for a match, insert the match or like notifications, and recompute
the target's fame rating. -/
def likeHandler (db : DB) (userId likedId : Nat) : DB × LikeRes :=
  if likedId == userId then (db, .selfLike)
  else if !(db.pics.any fun u => u == userId) then (db, .noProfilePic)
  else if isBlockedPair db userId likedId then (db, .blockedLike)
  else
    let likes' := if hasPair db.likes userId likedId then db.likes
                  else db.likes ++ [(userId, likedId)]
    let db1 := { db with likes := likes' }
    let isMatch := hasPair db1.likes likedId userId
    let notifs : List Notif :=
      if isMatch then [⟨userId, .tmatch, likedId⟩, ⟨likedId, .tmatch, userId⟩]
      else [⟨likedId, .tlike, userId⟩]
    let db2 := { db1 with notifications := db1.notifications ++ notifs }
    ((updateFameRating db2 likedId).1, .ok isMatch)

/-- Outcome of `DELETE /api/users/:id/like`. -/
inductive UnlikeRes
  | notFound
  | okU (wasMatch : Bool)
deriving DecidableEq

/-- The `DELETE /api/users/:id/like` handler of `routes/users.js`:
record whether a match existed, delete the like edge; if no row was
deleted, roll back and answer `404 Like not found`; otherwise insert the
unlike notification and recompute the target's fame rating. -/
def unlikeHandler (db : DB) (userId likedId : Nat) : DB × UnlikeRes :=
  let wasMatch := hasPair db.likes userId likedId && hasPair db.likes likedId userId
  if hasPair db.likes userId likedId then
    let db1 := { db with
      likes := db.likes.filter fun l => !(l.1 == userId && l.2 == likedId),
      notifications := db.notifications ++ [⟨likedId, .tunlike, userId⟩] }
    ((updateFameRating db1 likedId).1, .okU wasMatch)
  else (db, .notFound)

/-- Outcome of the visit-recording part of `GET /api/users/:id`. -/
inductive VisitRes
  | blockedView
  | userNotFound
  | okV
deriving DecidableEq

/-- The `GET /api/users/:id` profile-view handler of `routes/users.js`,
restricted to its state effects: reject blocked pairs, `404` when the
target has no profile row, and for a non-self view insert a visit event
and a visit notification and recompute the target's fame rating. -/
def visitProfile (db : DB) (viewerId targetId : Nat) : DB × VisitRes :=
  if isBlockedPair db viewerId targetId then (db, .blockedView)
  else if !(hasProfile db targetId) then (db, .userNotFound)
  else if targetId != viewerId then
    let db1 := { db with
      visits := db.visits ++ [(viewerId, targetId)],
      notifications := db.notifications ++ [⟨targetId, .tvisit, viewerId⟩] }
    ((updateFameRating db1 targetId).1, .okV)
  else (db, .okV)

/-- Outcome of `POST /api/users/:id/block`. -/
inductive BlockRes
  | selfBlock
  | okB
deriving DecidableEq

/-- The `POST /api/users/:id/block` handler of `routes/users.js`:
reject self-blocks, insert the block edge with `ON CONFLICT DO NOTHING`,
and delete every like edge between the pair in either direction. -/
def blockHandler (db : DB) (userId blockedId : Nat) : DB × BlockRes :=
  if blockedId == userId then (db, .selfBlock)
  else
    let blocks' := if hasPair db.blocks userId blockedId then db.blocks
                   else db.blocks ++ [(userId, blockedId)]
    let likes' := db.likes.filter fun l =>
      !((l.1 == userId && l.2 == blockedId) || (l.1 == blockedId && l.2 == userId))
    ({ db with blocks := blocks', likes := likes' }, .okB)

/-- Live events a socket handler can emit, tagged with the user whose
registered socket (or own connection, for sender-directed events)
receives them. -/
inductive Emit
  | errorTo (user : Nat) (msg : String)
  | messageSentTo (user : Nat)
  | newMessageTo (user : Nat)
  | newNotificationTo (user : Nat)
deriving DecidableEq

/-- `userSockets.get(userId)` on the presence map (`userId -> socketId`). -/
def lookupSocket (m : List (Nat × Nat)) (userId : Nat) : Option Nat :=
  (m.find? fun e => e.1 == userId).map fun e => e.2

/-- `userSockets.set(userId, socketId)` on connection: replace the
identity's entry when present, append it otherwise. -/
def registerSocket (m : List (Nat × Nat)) (userId sockId : Nat) : List (Nat × Nat) :=
  if m.any (fun e => e.1 == userId) then
    m.map fun e => if e.1 == userId then (e.1, sockId) else e
  else m ++ [(userId, sockId)]

/-- The presence-map cleanup of the `disconnect` handler:
`userSockets.delete(userId)`.  The disconnecting connection's socket id
is in scope in the source handler but unused by the delete call; it is
kept here as the (ignored) `staleSockId` argument so statements about
stale disconnects can name it. -/
def disconnectCleanup (m : List (Nat × Nat)) (userId : Nat)
    (staleSockId : Nat) : List (Nat × Nat) :=
  m.filter fun e => !(e.1 == userId)

/-- JS `String.prototype.trim()`: strip leading and trailing whitespace.
Implemented over the character list so that concrete runs compute. -/
def jsTrim (s : String) : String :=
  ⟨((s.data.dropWhile Char.isWhitespace).reverse.dropWhile Char.isWhitespace).reverse⟩

/-- The `send_message` socket handler's mutual-match query:
`SELECT 1 FROM likes l1 WHERE l1.liker_id = a AND l1.liked_id = b AND
EXISTS(SELECT 1 FROM likes l2 WHERE l2.liker_id = b AND l2.liked_id = a)`. -/
def isMutualLike (db : DB) (a b : Nat) : Bool :=
  hasPair db.likes a b && hasPair db.likes b a

/-- The `send_message` socket handler of `socket/socketHandler.js`.
Validation, match and block checks happen before any write; the message
insert, sender confirmation, live delivery to an online receiver, the
notification insert and the live notification follow in that order.  A
failing store write throws into the handler's `catch`, which emits a
generic error to the sender; the two boolean arguments inject a failure
into the message insert and the notification insert respectively. -/
def sendMessage (db : DB) (sockets : List (Nat × Nat)) (userId receiverId : Nat)
    (content : String) (msgInsertFails notifInsertFails : Bool) : DB × List Emit :=
  if receiverId == 0 || jsTrim content == "" then
    (db, [.errorTo userId "Invalid message data"])
  else if !(isMutualLike db userId receiverId) then
    (db, [.errorTo userId "Can only message matched users"])
  else if isBlockedPair db userId receiverId then
    (db, [.errorTo userId "Cannot message this user"])
  else if msgInsertFails then
    (db, [.errorTo userId "Failed to send message"])
  else
    let db1 := { db with
      messages := db.messages ++ [⟨userId, receiverId, jsTrim content, false⟩] }
    let liveMsg : List Emit :=
      if (lookupSocket sockets receiverId).isSome then [.newMessageTo receiverId] else []
    if notifInsertFails then
      (db1, [.messageSentTo userId] ++ liveMsg
              ++ [.errorTo userId "Failed to send message"])
    else
      let db2 := { db1 with
        notifications := db1.notifications ++ [⟨receiverId, .tmessage, userId⟩] }
      let liveNotif : List Emit :=
        if (lookupSocket sockets receiverId).isSome then [.newNotificationTo receiverId] else []
      (db2, [.messageSentTo userId] ++ liveMsg ++ liveNotif)

/-- An inbound action, for reasoning about sequences of interactions. -/
inductive Ev
  | elike (actor target : Nat)
  | eunlike (actor target : Nat)
  | evisit (actor target : Nat)
  | eblock (actor target : Nat)
  | emsg (sender receiver : Nat) (content : String)
deriving DecidableEq

/-- Apply one inbound action to the store (fault-free, presence empty —
only the store effect matters here). -/
def stepEv (db : DB) (e : Ev) : DB :=
  match e with
  | .elike a t => (likeHandler db a t).1
  | .eunlike a t => (unlikeHandler db a t).1
  | .evisit a t => (visitProfile db a t).1
  | .eblock a t => (blockHandler db a t).1
  | .emsg s r c => (sendMessage db [] s r c false false).1

/-- Run a sequence of inbound actions from a starting store state. -/
def runEvents (db : DB) (evs : List Ev) : DB :=
  evs.foldl stepEv db

/-- The Reputation Score formula in the spec's words:
3×(distinct current likers) + 1×(total visit events) − 2×(distinct users
who ever unliked after having liked).  Stated over the three aggregate
counts so it can be compared with what the code stores. -/
def specReputationScore (distinctLikers visitEvents everUnlikers : Nat) : Int :=
  3 * (distinctLikers : Int) + (visitEvents : Int) - 2 * (everUnlikers : Int)

/-- `updateFameRating` only rewrites `profiles`; the like table is untouched. -/
@[simp] theorem updateFameRating_likes (db : DB) (b : Nat) :
    (updateFameRating db b).1.likes = db.likes := by
  unfold updateFameRating; split <;> rfl

/-- `updateFameRating` leaves the visit table untouched. -/
@[simp] theorem updateFameRating_visits (db : DB) (b : Nat) :
    (updateFameRating db b).1.visits = db.visits := by
  unfold updateFameRating; split <;> rfl

/-- `updateFameRating` leaves the block table untouched. -/
@[simp] theorem updateFameRating_blocks (db : DB) (b : Nat) :
    (updateFameRating db b).1.blocks = db.blocks := by
  unfold updateFameRating; split <;> rfl

/-- `updateFameRating` leaves the message table untouched. -/
@[simp] theorem updateFameRating_messages (db : DB) (b : Nat) :
    (updateFameRating db b).1.messages = db.messages := by
  unfold updateFameRating; split <;> rfl

/-- `updateFameRating` leaves the notification table untouched. -/
@[simp] theorem updateFameRating_notifications (db : DB) (b : Nat) :
    (updateFameRating db b).1.notifications = db.notifications := by
  unfold updateFameRating; split <;> rfl

/-- `updateFameRating` leaves the picture set untouched. -/
@[simp] theorem updateFameRating_pics (db : DB) (b : Nat) :
    (updateFameRating db b).1.pics = db.pics := by
  unfold updateFameRating; split <;> rfl

/-- Pointwise fame overwrite preserves which profile rows exist. -/
theorem any_fst_map_update (ps : List (Nat × Int)) (b' b : Nat) (s : Int) :
    ((ps.map fun p => if p.1 == b' then (p.1, s) else p).any fun p => p.1 == b)
      = ps.any fun p => p.1 == b := by
  induction ps with
  | nil => rfl
  | cons p ps ih =>
    simp only [List.map_cons, List.any_cons, ih]
    congr 1
    split <;> rfl

/-- `updateFameRating` preserves profile-row existence. -/
theorem hasProfile_update (db : DB) (b' b : Nat) :
    hasProfile (updateFameRating db b').1 b = hasProfile db b := by
  unfold updateFameRating hasProfile
  split
  · exact any_fst_map_update db.profiles b' b _
  · rfl

/-- Looking up the overwritten row after the pointwise fame update
yields the new score. -/
theorem lookupFame_map_update (ps : List (Nat × Int)) (b : Nat) (s : Int)
    (h : (ps.any fun p => p.1 == b) = true) :
    lookupFame (ps.map fun p => if p.1 == b then (p.1, s) else p) b = s := by
  induction ps with
  | nil => simp at h
  | cons p ps ih =>
    by_cases hp : p.1 = b
    · simp [lookupFame, List.find?_cons, hp]
    · have hp' : (p.1 == b) = false := beq_eq_false_iff_ne.mpr hp
      have h' : (ps.any fun q => q.1 == b) = true := by
        simpa [List.any_cons, hp'] using h
      simpa [lookupFame, List.find?_cons, hp', hp] using ih h'

/-- After a recompute for `b` with a profile row present, the stored
rating is the freshly derived score. -/
theorem getFame_update (db : DB) (b : Nat) (h : hasProfile db b = true) :
    getFame (updateFameRating db b).1 b = fameScore db b := by
  unfold getFame updateFameRating
  rw [if_pos h]
  exact lookupFame_map_update db.profiles b (fameScore db b) h

/-- A starting state for concrete runs: users 1, 2 and 3 have profile
rows with fame 0; users 1 and 3 hold profile pictures; every
interaction table is empty. -/
def exInit : DB := ⟨[(1, 0), (2, 0), (3, 0)], [1, 3], [], [], [], [], []⟩

/-- Trace for the C1 counterexample: user 3 visits user 2 twice, then
user 1 likes user 2 and unlikes again. -/
def exTraceC1 : List Ev :=
  [.evisit 3 2, .evisit 3 2, .elike 1 2, .eunlike 1 2]

/-- Trace for the C2 counterexample: user 1 likes user 2, then
immediately unlikes, with no other interaction involving user 2. -/
def exTraceC2 : List Ev := [.elike 1 2, .eunlike 1 2]

/-- C1: the claim says the stored score equals 3×(distinct current
likers) + 1×(total visit events) − 2×(distinct ever-unlikers).  In the
concrete trace `exTraceC1`, user 2 ends with 0 current likers, 2 visit
events (both from visitor 3), and 1 user (user 1) who unliked after
having liked, so the claimed formula gives 3×0 + 2 − 2×1 = 0 — but the
code stores 1: it counts distinct visitors (one) rather than visit
events, and its dislike subquery always evaluates to 0. -/
theorem fameRating_spec_formula_counterexample :
    getFame (runEvents exInit exTraceC1) 2 = 1 ∧
    ((runEvents exInit exTraceC1).visits.filter fun v => v.2 == 2).length = 2 ∧
    ((runEvents exInit exTraceC1).likes.filter fun l => l.2 == 2) = [] ∧
    specReputationScore 0 2 1 = 0 ∧
    getFame (runEvents exInit exTraceC1) 2 ≠ specReputationScore 0 2 1 := by
  decide

/-- C1 (amended): whenever the Reputation Updater recomputes `b`'s score
and a profile row for `b` exists, the stored score equals 3×(distinct
current likers of `b`) + 1×(distinct visitors of `b`); the ever-unliked
term contributes nothing because the `total_dislikes` subquery always
evaluates to 0 (and no unlike history is stored at all). -/
theorem fameRating_amended_formula (db : DB) (b : Nat)
    (h : hasProfile db b = true) :
    getFame (updateFameRating db b).1 b
      = 3 * (totalLikes db b : Int) + (totalVisits db b : Int) ∧
    totalDislikes db b = 0 := by
  refine ⟨?_, totalDislikes_eq_zero db b⟩
  rw [getFame_update db b h]
  unfold fameScore
  rw [totalDislikes_eq_zero]
  push_cast
  ring

/-- Witness for the amended C1 at a concrete store. -/
theorem fameRating_amended_formula_witness :
    hasProfile exInit 2 = true ∧
    (getFame (updateFameRating exInit 2).1 2
       = 3 * (totalLikes exInit 2 : Int) + (totalVisits exInit 2 : Int) ∧
     totalDislikes exInit 2 = 0) :=
  ⟨by decide, fameRating_amended_formula exInit 2 (by decide)⟩

/-- When no row of a two-column table has second component `b`, the
second-component filter is empty. -/
theorem filter_snd_eq_nil {l : List (Nat × Nat)} {b : Nat}
    (h : ∀ x, (x, b) ∉ l) : (l.filter fun v => v.2 == b) = [] := by
  rw [List.filter_eq_nil_iff]
  rintro ⟨x, y⟩ hmem
  simp only [beq_iff_eq]
  intro hy
  subst hy
  exact h x hmem

/-- A user with no incoming like rows has zero distinct likers. -/
theorem totalLikes_zero (db : DB) (b : Nat)
    (h : ∀ x, (x, b) ∉ db.likes) : totalLikes db b = 0 := by
  unfold totalLikes
  rw [filter_snd_eq_nil h]
  rfl

/-- A user with no incoming visit rows has zero distinct visitors. -/
theorem totalVisits_zero (db : DB) (b : Nat)
    (h : ∀ x, (x, b) ∉ db.visits) : totalVisits db b = 0 := by
  unfold totalVisits
  rw [filter_snd_eq_nil h]
  rfl

/-- The like handler never changes which profile rows exist. -/
theorem hasProfile_likeHandler (db : DB) (A B b : Nat) :
    hasProfile (likeHandler db A B).1 b = hasProfile db b := by
  unfold likeHandler
  split
  · rfl
  split
  · rfl
  split
  · rfl
  · rw [hasProfile_update]
    rfl

/-- Like/visit tables of a successful like: the edge is appended (given
it was absent) and visits are untouched. -/
theorem likeHandler_success_fields (db : DB) (A B : Nat)
    (hne : (B == A) = false) (hpic : (db.pics.any fun u => u == A) = true)
    (hnb : isBlockedPair db A B = false) (hnew : hasPair db.likes A B = false) :
    (likeHandler db A B).1.likes = db.likes ++ [(A, B)] ∧
    (likeHandler db A B).1.visits = db.visits := by
  unfold likeHandler
  simp [hne, hpic, hnb, hnew]

/-- C2 (amended): a like from `A` followed immediately by an unlike,
with no other interaction involving `B`, leaves `B`'s recomputed
Reputation Score at 0, not −2: the deleted like leaves no trace and the
dislike term of the recompute is identically zero. -/
theorem like_unlike_score_amended (db : DB) (A B : Nat)
    (hB : hasProfile db B = true) (hne : B ≠ A)
    (hpic : A ∈ db.pics) (hnb : isBlockedPair db A B = false)
    (hlikes : ∀ x, (x, B) ∉ db.likes) (hvis : ∀ x, (x, B) ∉ db.visits) :
    getFame ((unlikeHandler (likeHandler db A B).1 A B).1) B = 0 := by
  have hBA : (B == A) = false := beq_eq_false_iff_ne.mpr hne
  have hpicA : (db.pics.any fun u => u == A) = true := by
    simp only [List.any_eq_true, beq_iff_eq]
    exact ⟨A, hpic, rfl⟩
  have hnew : hasPair db.likes A B = false :=
    (hasPair_eq_false _ _ _).mpr (hlikes A)
  obtain ⟨hl, hv⟩ := likeHandler_success_fields db A B hBA hpicA hnb hnew
  have hdel : hasPair (likeHandler db A B).1.likes A B = true := by
    rw [hl, hasPair_iff]
    simp
  unfold unlikeHandler
  simp only [hdel, if_true]
  have hprof : hasProfile
      { (likeHandler db A B).1 with
        likes := (likeHandler db A B).1.likes.filter fun l => !(l.1 == A && l.2 == B),
        notifications := (likeHandler db A B).1.notifications ++ [⟨B, .tunlike, A⟩] }
      B = true := by
    show hasProfile (likeHandler db A B).1 B = true
    rw [hasProfile_likeHandler]
    exact hB
  rw [getFame_update _ _ hprof]
  unfold fameScore
  rw [totalDislikes_eq_zero, totalLikes_zero, totalVisits_zero]
  · norm_num
  · show ∀ x, (x, B) ∉ (likeHandler db A B).1.visits
    rw [hv]
    exact hvis
  · show ∀ x, (x, B) ∉ (likeHandler db A B).1.likes.filter fun l => !(l.1 == A && l.2 == B)
    intro x hx
    rw [hl] at hx
    rcases List.mem_filter.mp hx with ⟨hmem, hpred⟩
    rcases List.mem_append.mp hmem with hmem | hmem
    · exact hlikes x hmem
    · simp only [List.mem_singleton, Prod.mk.injEq] at hmem
      obtain ⟨hxA, _⟩ := hmem
      subst hxA
      simp at hpred

/-- Witness for the amended C2 at the concrete store `exInit`. -/
theorem like_unlike_score_amended_witness :
    (hasProfile exInit 2 = true ∧ (2 : Nat) ≠ 1 ∧ 1 ∈ exInit.pics ∧
      isBlockedPair exInit 1 2 = false) ∧
    getFame ((unlikeHandler (likeHandler exInit 1 2).1 1 2).1) 2 = 0 :=
  ⟨⟨by decide, by decide, by decide, by decide⟩,
    like_unlike_score_amended exInit 1 2 (by decide) (by decide) (by decide)
      (by decide) (by intro x h; simp [exInit] at h) (by intro x h; simp [exInit] at h)⟩

/-- C2: the claim says a like followed immediately by an unlike leaves
user 2 with score −2 (the spec formula with one ever-unliker).  The
code stores 0: the unlike deletes the only like row, no record of the
past like remains, and the dislike subquery is identically 0. -/
theorem like_unlike_score_counterexample :
    getFame (runEvents exInit exTraceC2) 2 = 0 ∧
    specReputationScore 0 0 1 = -2 ∧
    getFame (runEvents exInit exTraceC2) 2 ≠ -2 := by
  decide

/-- A store where users 1 and 2 hold profile rows and pictures, like
each other (a match) and are not blocked. -/
def exMatched : DB := ⟨[(1, 0), (2, 0)], [1, 2], [(1, 2), (2, 1)], [], [], [], []⟩

/-- C3: the claim says any failing store write abandons the whole send
atomically, with no live event to the receiver.  Concretely, with users
1 and 2 matched and 2 online, a failure of the notification insert
(second store write) still leaves the message row persisted and has
already delivered the live `new_message` event to user 2, so the
observable outcome is not just a generic error to the sender. -/
theorem send_message_partial_failure_counterexample :
    (sendMessage exMatched [(2, 7)] 1 2 "hi" false true).1.messages
      = [⟨1, 2, "hi", false⟩] ∧
    Emit.newMessageTo 2 ∈ (sendMessage exMatched [(2, 7)] 1 2 "hi" false true).2 ∧
    (sendMessage exMatched [(2, 7)] 1 2 "hi" false true).2
      ≠ [Emit.errorTo 1 "Failed to send message"] := by
  decide

/-- C3 (amended): a failure of the message insert abandons the action
with only a generic error to the sender; but a failure of the later
notification insert leaves the message persisted and its live delivery
to an online receiver already performed — only the notification row is
missing, and the sender additionally receives the generic error. -/
theorem send_message_failure_semantics (db : DB) (sockets : List (Nat × Nat))
    (A B : Nat) (c : String) (hB : B ≠ 0) (hc : jsTrim c ≠ "")
    (hm : isMutualLike db A B = true) (hnb : isBlockedPair db A B = false) :
    (∀ nf, sendMessage db sockets A B c true nf
        = (db, [.errorTo A "Failed to send message"])) ∧
    ((sendMessage db sockets A B c false true).1
        = { db with messages := db.messages ++ [⟨A, B, jsTrim c, false⟩] } ∧
     (sendMessage db sockets A B c false true).1.notifications
        = db.notifications ∧
     (sendMessage db sockets A B c false true).2
        = [.messageSentTo A]
            ++ (if (lookupSocket sockets B).isSome then [.newMessageTo B] else [])
            ++ [.errorTo A "Failed to send message"]) := by
  have hB' : (B == 0) = false := beq_eq_false_iff_ne.mpr hB
  have hc' : (jsTrim c == "") = false := beq_eq_false_iff_ne.mpr hc
  unfold sendMessage
  simp [hB', hc', hm, hnb]

/-- Witness for the amended C3 at a concrete store. -/
theorem send_message_failure_semantics_witness :
    sendMessage exMatched [(2, 7)] 1 2 "hi" true false
      = (exMatched, [.errorTo 1 "Failed to send message"]) :=
  (send_message_failure_semantics exMatched [(2, 7)] 1 2 "hi" (by decide)
    (by decide) (by decide) (by decide)).1 false

/-- C4: a well-formed send between identities with no mutual like is
rejected with the authorization error emitted to the sender only, and
the store — messages and notifications included — is left unchanged. -/
theorem send_message_unmatched_rejected (db : DB) (sockets : List (Nat × Nat))
    (A B : Nat) (c : String) (f1 f2 : Bool) (hB : B ≠ 0) (hc : jsTrim c ≠ "")
    (hnm : ¬((A, B) ∈ db.likes ∧ (B, A) ∈ db.likes)) :
    sendMessage db sockets A B c f1 f2
      = (db, [.errorTo A "Can only message matched users"]) := by
  have hB' : (B == 0) = false := beq_eq_false_iff_ne.mpr hB
  have hc' : (jsTrim c == "") = false := beq_eq_false_iff_ne.mpr hc
  have hm : isMutualLike db A B = false := by
    unfold isMutualLike
    rcases not_and_or.mp hnm with h | h
    · rw [(hasPair_eq_false _ _ _).mpr h, Bool.false_and]
    · rw [(hasPair_eq_false _ _ _).mpr h, Bool.and_false]
  unfold sendMessage
  simp [hB', hc', hm]

/-- Witness for C4 at a concrete store with no likes at all. -/
theorem send_message_unmatched_rejected_witness :
    sendMessage exInit [] 1 2 "hi" false false
      = (exInit, [.errorTo 1 "Can only message matched users"]) :=
  send_message_unmatched_rejected exInit [] 1 2 "hi" false false (by decide)
    (by decide) (by decide)

/-- C7: the claim says a stale disconnect never evicts a newer
connection registered for the same identity.  Concretely, socket 5
registers for user 1, socket 9 supersedes it, and the entry is
`(1, 9)`; the stale disconnect of socket 5 nevertheless removes that
entry, leaving user 1 unreachable although connection 9 is newer. -/
theorem stale_disconnect_evicts_counterexample :
    registerSocket (registerSocket [] 1 5) 1 9 = [(1, 9)] ∧
    lookupSocket (registerSocket (registerSocket [] 1 5) 1 9) 1 = some 9 ∧
    lookupSocket
        (disconnectCleanup (registerSocket (registerSocket [] 1 5) 1 9) 1 5) 1
      = none := by
  decide

/-- C7 (amended): the disconnect cleanup removes the identity's presence
entry unconditionally — whatever socket the entry currently refers to
and whichever (possibly stale) connection triggers the disconnect. -/
theorem disconnect_removes_unconditionally (m : List (Nat × Nat)) (u s : Nat) :
    lookupSocket (disconnectCleanup m u s) u = none := by
  unfold disconnectCleanup lookupSocket
  rw [Option.map_eq_none', List.find?_eq_none]
  intro e he
  simpa using (List.mem_filter.mp he).2

/-- Number of stored notifications for recipient `u` of type `t`. -/
def notifCount (db : DB) (u : Nat) (t : NType) : Nat :=
  (db.notifications.filter fun n => n.user == u && n.ntype == t).length

/-- Result and effects of a like whose target had already liked back,
the forward edge being new. -/
theorem likeHandler_match_fields (db : DB) (A B : Nat)
    (hne : (B == A) = false) (hpic : (db.pics.any fun u => u == A) = true)
    (hnb : isBlockedPair db A B = false) (hnew : hasPair db.likes A B = false)
    (hrev : hasPair (db.likes ++ [(A, B)]) B A = true) :
    (likeHandler db A B).2 = .ok true ∧
    (likeHandler db A B).1.notifications
      = db.notifications ++ [⟨A, .tmatch, B⟩, ⟨B, .tmatch, A⟩] := by
  unfold likeHandler
  simp [hne, hpic, hnb, hnew, hrev]

/-- Result and effects of a like re-issued over an existing match. -/
theorem likeHandler_dup_match_fields (db : DB) (A B : Nat)
    (hne : (B == A) = false) (hpic : (db.pics.any fun u => u == A) = true)
    (hnb : isBlockedPair db A B = false) (hexist : hasPair db.likes A B = true)
    (hrev : hasPair db.likes B A = true) :
    (likeHandler db A B).2 = .ok true ∧
    (likeHandler db A B).1.likes = db.likes ∧
    (likeHandler db A B).1.notifications
      = db.notifications ++ [⟨A, .tmatch, B⟩, ⟨B, .tmatch, A⟩] := by
  unfold likeHandler
  simp [hne, hpic, hnb, hexist, hrev]

/-- Appending the two match notifications bumps each party's match
count by one and leaves every like-type count unchanged. -/
theorem notifCount_after_match_pair (db : DB) (dbR : DB) (A B : Nat)
    (hne : (B == A) = false)
    (hnots : dbR.notifications
      = db.notifications ++ [⟨A, .tmatch, B⟩, ⟨B, .tmatch, A⟩]) :
    notifCount dbR A .tmatch = notifCount db A .tmatch + 1 ∧
    notifCount dbR B .tmatch = notifCount db B .tmatch + 1 ∧
    (∀ x, notifCount dbR x .tlike = notifCount db x .tlike) := by
  have hAB : (A == B) = false := by
    rcases h : A == B with _ | _
    · rfl
    · rw [beq_iff_eq] at h
      subst h
      simp at hne
  have hneP : ¬B = A := beq_eq_false_iff_ne.mp hne
  have hABP : ¬A = B := fun h => hneP h.symm
  unfold notifCount
  rw [hnots]
  refine ⟨?_, ?_, ?_⟩
  · simp [List.filter_append, hAB, hne, hneP, hABP]
  · simp [List.filter_append, hAB, hne, hneP, hABP]
  · intro x
    have h1 : (NType.tmatch == NType.tlike) = false := rfl
    simp [List.filter_append, h1]

/-- C5: when `B` has already liked `A` and `A` holds no prior like
toward `B`, a successful like from `A` detects the match and creates
exactly one match-type notification for each of `A` and `B`, and no
like-type notification for anyone. -/
theorem like_match_notifications (db : DB) (A B : Nat)
    (hne : B ≠ A) (hpic : A ∈ db.pics) (hnb : isBlockedPair db A B = false)
    (hprior : (A, B) ∉ db.likes) (hrev : (B, A) ∈ db.likes) :
    (likeHandler db A B).2 = .ok true ∧
    notifCount (likeHandler db A B).1 A .tmatch = notifCount db A .tmatch + 1 ∧
    notifCount (likeHandler db A B).1 B .tmatch = notifCount db B .tmatch + 1 ∧
    (∀ x, notifCount (likeHandler db A B).1 x .tlike = notifCount db x .tlike) := by
  have hBA : (B == A) = false := beq_eq_false_iff_ne.mpr hne
  have hpicA : (db.pics.any fun u => u == A) = true := by
    simp only [List.any_eq_true, beq_iff_eq]
    exact ⟨A, hpic, rfl⟩
  have hnew : hasPair db.likes A B = false := (hasPair_eq_false _ _ _).mpr hprior
  have hrev' : hasPair (db.likes ++ [(A, B)]) B A = true := by
    rw [hasPair_iff]
    exact List.mem_append_left _ hrev
  obtain ⟨hres, hnots⟩ := likeHandler_match_fields db A B hBA hpicA hnb hnew hrev'
  obtain ⟨h1, h2, h3⟩ :=
    notifCount_after_match_pair db (likeHandler db A B).1 A B hBA hnots
  exact ⟨hres, h1, h2, h3⟩

/-- A store where user 2 already likes user 1, user 1 not yet back. -/
def exReverse : DB := ⟨[(1, 0), (2, 0)], [1, 2], [(2, 1)], [], [], [], []⟩

/-- Witness for C5 at the concrete store `exReverse`. -/
theorem like_match_notifications_witness :
    (likeHandler exReverse 1 2).2 = .ok true ∧
    notifCount (likeHandler exReverse 1 2).1 1 .tmatch
      = notifCount exReverse 1 .tmatch + 1 ∧
    notifCount (likeHandler exReverse 1 2).1 2 .tmatch
      = notifCount exReverse 2 .tmatch + 1 :=
  ⟨(like_match_notifications exReverse 1 2 (by decide) (by decide) (by decide)
      (by decide) (by decide)).1,
   (like_match_notifications exReverse 1 2 (by decide) (by decide) (by decide)
      (by decide) (by decide)).2.1,
   (like_match_notifications exReverse 1 2 (by decide) (by decide) (by decide)
      (by decide) (by decide)).2.2.1⟩

/-- C6: the like action rejects a self-target, an acting identity with
no profile picture, and a blocked pair, each leaving the store
untouched; otherwise it reports success and the like edge is inserted
idempotently — a duplicate insert leaves the like table unchanged. -/
theorem like_handler_guards_and_idempotence (db : DB) (A B : Nat) :
    (B = A → likeHandler db A B = (db, .selfLike)) ∧
    (B ≠ A → A ∉ db.pics → likeHandler db A B = (db, .noProfilePic)) ∧
    (B ≠ A → A ∈ db.pics → isBlockedPair db A B = true →
      likeHandler db A B = (db, .blockedLike)) ∧
    (B ≠ A → A ∈ db.pics → isBlockedPair db A B = false →
      (∃ m, (likeHandler db A B).2 = .ok m) ∧
      (likeHandler db A B).1.likes
        = if (A, B) ∈ db.likes then db.likes else db.likes ++ [(A, B)]) := by
  refine ⟨?_, ?_, ?_, ?_⟩
  · intro h
    subst h
    unfold likeHandler
    simp
  · intro hne hnopic
    have hBA : (B == A) = false := beq_eq_false_iff_ne.mpr hne
    have hpicA : (db.pics.any fun u => u == A) = false := by
      rw [List.any_eq_false]
      intro u hu
      simp only [beq_iff_eq]
      intro h
      subst h
      exact hnopic hu
    unfold likeHandler
    simp [hBA, hpicA]
  · intro hne hpic hb
    have hBA : (B == A) = false := beq_eq_false_iff_ne.mpr hne
    have hpicA : (db.pics.any fun u => u == A) = true := by
      simp only [List.any_eq_true, beq_iff_eq]
      exact ⟨A, hpic, rfl⟩
    unfold likeHandler
    simp [hBA, hpicA, hb]
  · intro hne hpic hnb
    have hBA : (B == A) = false := beq_eq_false_iff_ne.mpr hne
    have hpicA : (db.pics.any fun u => u == A) = true := by
      simp only [List.any_eq_true, beq_iff_eq]
      exact ⟨A, hpic, rfl⟩
    by_cases hEx : (A, B) ∈ db.likes
    · have hP : hasPair db.likes A B = true := (hasPair_iff _ _ _).mpr hEx
      unfold likeHandler
      simp [hBA, hpicA, hnb, hP, hEx]
    · have hP : hasPair db.likes A B = false := (hasPair_eq_false _ _ _).mpr hEx
      unfold likeHandler
      simp [hBA, hpicA, hnb, hP, hEx]

/-- Witness for C6: the non-rejecting clause at the concrete store
`exMatched`, where the edge already exists and the insert is a no-op. -/
theorem like_handler_guards_witness :
    (∃ m, (likeHandler exMatched 1 2).2 = .ok m) ∧
    (likeHandler exMatched 1 2).1.likes
      = if ((1 : Nat), (2 : Nat)) ∈ exMatched.likes then exMatched.likes
        else exMatched.likes ++ [(1, 2)] :=
  (like_handler_guards_and_idempotence exMatched 1 2).2.2.2 (by decide)
    (by decide) (by decide)

/-- C9: with both like edges already present, a further like from `A`
still succeeds as a match, the edge insert is a no-op, and a fresh pair
of match notifications is nevertheless inserted — notification creation
is not idempotent. -/
theorem repeated_like_duplicates_match_notifications (db : DB) (A B : Nat)
    (hne : B ≠ A) (hpic : A ∈ db.pics) (hnb : isBlockedPair db A B = false)
    (hab : (A, B) ∈ db.likes) (hba : (B, A) ∈ db.likes) :
    (likeHandler db A B).2 = .ok true ∧
    (likeHandler db A B).1.likes = db.likes ∧
    notifCount (likeHandler db A B).1 A .tmatch = notifCount db A .tmatch + 1 ∧
    notifCount (likeHandler db A B).1 B .tmatch = notifCount db B .tmatch + 1 := by
  have hBA : (B == A) = false := beq_eq_false_iff_ne.mpr hne
  have hpicA : (db.pics.any fun u => u == A) = true := by
    simp only [List.any_eq_true, beq_iff_eq]
    exact ⟨A, hpic, rfl⟩
  have hP : hasPair db.likes A B = true := (hasPair_iff _ _ _).mpr hab
  have hR : hasPair db.likes B A = true := (hasPair_iff _ _ _).mpr hba
  obtain ⟨hres, hlikes, hnots⟩ :=
    likeHandler_dup_match_fields db A B hBA hpicA hnb hP hR
  obtain ⟨h1, h2, _⟩ :=
    notifCount_after_match_pair db (likeHandler db A B).1 A B hBA hnots
  exact ⟨hres, hlikes, h1, h2⟩

/-- Witness for C9 at the concrete matched store `exMatched`. -/
theorem repeated_like_witness :
    (likeHandler exMatched 1 2).2 = .ok true ∧
    (likeHandler exMatched 1 2).1.likes = exMatched.likes :=
  ⟨(repeated_like_duplicates_match_notifications exMatched 1 2 (by decide)
      (by decide) (by decide) (by decide) (by decide)).1,
   (repeated_like_duplicates_match_notifications exMatched 1 2 (by decide)
      (by decide) (by decide) (by decide) (by decide)).2.1⟩

/-- C10: an unlike with no like edge present answers `404 Like not
found` and leaves the whole store unchanged — no unlike notification,
no fame recompute. -/
theorem unlike_without_like_not_found (db : DB) (A B : Nat)
    (h : (A, B) ∉ db.likes) :
    unlikeHandler db A B = (db, .notFound) := by
  have h' : hasPair db.likes A B = false := (hasPair_eq_false _ _ _).mpr h
  unfold unlikeHandler
  simp [h']

/-- Witness for C10 at the empty-interaction store `exInit`. -/
theorem unlike_without_like_not_found_witness :
    unlikeHandler exInit 1 2 = (exInit, .notFound) :=
  unlike_without_like_not_found exInit 1 2 (by decide)

/-- The like handler never touches the block table. -/
@[simp] theorem likeHandler_blocks (db : DB) (a t : Nat) :
    (likeHandler db a t).1.blocks = db.blocks := by
  unfold likeHandler
  split
  · rfl
  split
  · rfl
  split
  · rfl
  · rw [updateFameRating_blocks]

/-- The unlike handler never touches the block table. -/
@[simp] theorem unlikeHandler_blocks (db : DB) (a t : Nat) :
    (unlikeHandler db a t).1.blocks = db.blocks := by
  unfold unlikeHandler
  split
  · rw [updateFameRating_blocks]
  · rfl

/-- The profile-view handler never touches the block table. -/
@[simp] theorem visitProfile_blocks (db : DB) (a t : Nat) :
    (visitProfile db a t).1.blocks = db.blocks := by
  unfold visitProfile
  split
  · rfl
  split
  · rfl
  split
  · rw [updateFameRating_blocks]
  · rfl

/-- The message handler never touches the block table. -/
@[simp] theorem sendMessage_blocks (db : DB) (sockets : List (Nat × Nat))
    (s r : Nat) (c : String) (f1 f2 : Bool) :
    (sendMessage db sockets s r c f1 f2).1.blocks = db.blocks := by
  unfold sendMessage
  split
  · rfl
  split
  · rfl
  split
  · rfl
  split
  · rfl
  split <;> split <;> rfl

/-- No inbound action ever removes a block edge. -/
theorem blocks_monotone_step (db : DB) (e : Ev) (p : Nat × Nat)
    (h : p ∈ db.blocks) : p ∈ (stepEv db e).blocks := by
  cases e with
  | elike a t => rw [stepEv, likeHandler_blocks]; exact h
  | eunlike a t => rw [stepEv, unlikeHandler_blocks]; exact h
  | evisit a t => rw [stepEv, visitProfile_blocks]; exact h
  | eblock a t =>
      rw [stepEv]
      unfold blockHandler
      split
      · exact h
      · show p ∈ (if hasPair db.blocks a t then db.blocks else db.blocks ++ [(a, t)])
        split
        · exact h
        · exact List.mem_append_left _ h
  | emsg s r c => rw [stepEv, sendMessage_blocks]; exact h

/-- Block edges persist across any sequence of inbound actions. -/
theorem blocks_monotone_run (db : DB) (evs : List Ev) (p : Nat × Nat)
    (h : p ∈ db.blocks) : p ∈ (runEvents db evs).blocks := by
  induction evs generalizing db with
  | nil => exact h
  | cons e evs ih => exact ih _ (blocks_monotone_step db e p h)

/-- A send between a pair with a block edge in either direction is
rejected before any write: the store is unchanged and the only emission
is an error to the sender. -/
theorem sendMessage_blocked_rejected (db : DB) (sockets : List (Nat × Nat))
    (S R : Nat) (c : String) (f1 f2 : Bool)
    (hb : (S, R) ∈ db.blocks ∨ (R, S) ∈ db.blocks) :
    (sendMessage db sockets S R c f1 f2).1 = db ∧
    ∃ m, (sendMessage db sockets S R c f1 f2).2 = [.errorTo S m] := by
  by_cases hv : (R == 0 || jsTrim c == "") = true
  · unfold sendMessage
    rw [if_pos hv]
    exact ⟨rfl, "Invalid message data", rfl⟩
  · have hv' : (R == 0 || jsTrim c == "") = false := Bool.eq_false_iff.mpr hv
    have hbp : isBlockedPair db S R = true := by
      unfold isBlockedPair
      rcases hb with h | h
      · rw [(hasPair_iff _ _ _).mpr h, Bool.true_or]
      · rw [(hasPair_iff _ _ _).mpr h, Bool.or_true]
    by_cases hm : isMutualLike db S R = true
    · unfold sendMessage
      rw [hv', hm, hbp]
      exact ⟨rfl, "Cannot message this user", rfl⟩
    · have hm' : isMutualLike db S R = false := Bool.eq_false_iff.mpr hm
      unfold sendMessage
      rw [hv', hm']
      exact ⟨rfl, "Can only message matched users", rfl⟩

/-- C8: blocking deletes every like edge between the pair in both
directions; the block edge is recorded and survives every further
action, and in any state carrying it a send in either direction is
rejected with only an error to the sender and no store change. -/
theorem block_severs_and_messaging_rejected (db : DB) (A B : Nat) (hne : A ≠ B) :
    ((A, B) ∉ (blockHandler db A B).1.likes ∧
     (B, A) ∉ (blockHandler db A B).1.likes) ∧
    (A, B) ∈ (blockHandler db A B).1.blocks ∧
    (∀ evs, (A, B) ∈ (runEvents (blockHandler db A B).1 evs).blocks) ∧
    (∀ db2 (sockets : List (Nat × Nat)) c f1 f2, (A, B) ∈ db2.blocks →
      (sendMessage db2 sockets A B c f1 f2).1 = db2 ∧
      (∃ m, (sendMessage db2 sockets A B c f1 f2).2 = [.errorTo A m]) ∧
      (sendMessage db2 sockets B A c f1 f2).1 = db2 ∧
      (∃ m, (sendMessage db2 sockets B A c f1 f2).2 = [.errorTo B m])) := by
  have hBA : (B == A) = false := beq_eq_false_iff_ne.mpr fun h => hne h.symm
  have hlikes : (blockHandler db A B).1.likes
      = db.likes.filter fun l =>
          !((l.1 == A && l.2 == B) || (l.1 == B && l.2 == A)) := by
    unfold blockHandler
    simp [hBA]
  have hmem : (A, B) ∈ (blockHandler db A B).1.blocks := by
    have : (blockHandler db A B).1.blocks
        = if hasPair db.blocks A B then db.blocks else db.blocks ++ [(A, B)] := by
      unfold blockHandler
      simp [hBA]
    rw [this]
    split
    · exact (hasPair_iff _ _ _).mp (by assumption)
    · exact List.mem_append_right _ (List.mem_singleton.mpr rfl)
  refine ⟨⟨?_, ?_⟩, hmem, ?_, ?_⟩
  · rw [hlikes]
    intro hx
    have := (List.mem_filter.mp hx).2
    simp at this
  · rw [hlikes]
    intro hx
    have := (List.mem_filter.mp hx).2
    simp at this
  · intro evs
    exact blocks_monotone_run _ evs _ hmem
  · intro db2 sockets c f1 f2 hb
    obtain ⟨h1, h2⟩ :=
      sendMessage_blocked_rejected db2 sockets A B c f1 f2 (Or.inl hb)
    obtain ⟨h3, h4⟩ :=
      sendMessage_blocked_rejected db2 sockets B A c f1 f2 (Or.inr hb)
    exact ⟨h1, h2, h3, h4⟩

/-- Witness for C8 at the concrete matched store `exMatched`: blocking
removes both like edges and records the block. -/
theorem block_severs_witness :
    ((1, 2) ∉ (blockHandler exMatched 1 2).1.likes ∧
     (2, 1) ∉ (blockHandler exMatched 1 2).1.likes) ∧
    (1, 2) ∈ (blockHandler exMatched 1 2).1.blocks :=
  ⟨(block_severs_and_messaging_rejected exMatched 1 2 (by decide)).1,
   (block_severs_and_messaging_rejected exMatched 1 2 (by decide)).2.1⟩

end DatingSite
